import Mathlib

/-!
Verification development for the MTCHacks-2025 annotation/consensus demo UI.

The file shallowly embeds the repository's core logic:
* the clinician annotation / AI region data model
  (`AnnotatableDicomViewer.tsx`, `DicomViewerWithOverlay.tsx`),
* the pathology catalogs and the region synthesizer
  `generateRegionsFromAIResponse` (the Demo component variant that uses the
  anatomical `PATHOLOGY_REGIONS` templates),
* the consensus detector `detectConsensus` (`CombinedDicomViewer.tsx`),
* the hover pick loop `handleCanvasMouseMove` (`DicomViewerWithOverlay.tsx`),
* the canvas drawing routines `drawOverlays`, `drawHeatmap`,
  `drawSingleAnnotation` and the deletion handler `handleDeleteAnnotation`,
  modelled as pure functions emitting lists of draw commands.

JavaScript numbers are embedded as rationals (`ℚ`); the source's
`Math.sqrt(d) < r` tests are embedded by the equivalent decidable comparison
`0 < r ∧ d < r * r` (the equivalence with the real square root is proved in
`regionContains_iff`).  JavaScript falsiness of `0`, `""`, `undefined` is made
explicit at each use site.
-/

namespace MTCHacks

/-- The `Annotation` interface of `AnnotatableDicomViewer.tsx`
(`id`, `type: "point"`, normalized `x`/`y`, `comment`, `color`).
Shortened Lean name `Annot`. -/
structure Annot where
  id : String
  type : String
  x : ℚ
  y : ℚ
  comment : String
  color : String
deriving DecidableEq

/-- The `HeatmapRegion` interface of `DicomViewerWithOverlay.tsx`:
normalized center `x`/`y`, normalized `radius`, confidence `intensity`,
optional `label` and `explanation`. -/
structure HeatmapRegion where
  x : ℚ
  y : ℚ
  radius : ℚ
  intensity : ℚ
  label : Option String
  explanation : Option String
deriving DecidableEq

/-- The `ConsensusRegion` interface of `CombinedDicomViewer.tsx`: a derived
center/radius plus the matched clinician annotation and AI region.
The source field `clinicianAnnotation` is named `clinicianAnnot` here. -/
structure ConsensusRegion where
  x : ℚ
  y : ℚ
  radius : ℚ
  clinicianAnnot : Annot
  aiRegion : HeatmapRegion
deriving DecidableEq

/-- One entry of the `PATHOLOGY_REGIONS` catalog (Demo component):
a normalized anatomical template `{ x, y, radius, description }`. -/
structure RegionTemplate where
  x : ℚ
  y : ℚ
  radius : ℚ
  description : String
deriving DecidableEq

/-- One entry of the `PATHOLOGY_INFO` catalog (Demo component):
`fullName`, `description`, and the optional `secondaryFindings` array
(every entry of the source catalog defines it, `normal` with `[]`). -/
structure PathologyInfo where
  fullName : String
  description : String
  secondaryFindings : List String
deriving DecidableEq

/-- The part of an `/api/analyze` response consumed by
`generateRegionsFromAIResponse`: `results?.response?.score`, `model_id`,
and `results?.response?.model`.  `none` models an absent (undefined) field. -/
structure AIResponse where
  score : Option ℚ
  model_id : Option String
  responseModel : Option String
deriving DecidableEq

/-- JavaScript `a || b` on strings: `a` if truthy (non-empty), else `b`. -/
def jsOrString (a b : String) : String :=
  if a = "" then b else a

/-- Character class `[a-z_]` under the `/i` flag: ASCII letters of either
case, or underscore. -/
def isPathChar (c : Char) : Bool :=
  c.isAlpha || c = '_'

/-- Greedy `[a-z_]+` run at the head of the character list. -/
def takeWhilePath : List Char → List Char
  | [] => []
  | c :: cs => if isPathChar c then c :: takeWhilePath cs else []

/-- Case-insensitive test that the (lowercase) pattern is an initial segment
of the input, as the literal part of `/chestradiography_([a-z_]+)/i` does. -/
def ciMatchesAt : List Char → List Char → Bool
  | [], _ => true
  | _ :: _, [] => false
  | p :: ps, c :: cs => (c.toLower = p) && ciMatchesAt ps cs

/-- The literal of the model-id regex `/chestradiography_([a-z_]+)/i`. -/
def chestPat : List Char := "chestradiography_".toList

/-- Leftmost match of `/chestradiography_([a-z_]+)/i`: at each position the
literal must match case-insensitively and at least one `[a-z_]` character must
follow; the captured group is the greedy run (original case preserved, as the
JS capture is). -/
def pathologyScan : List Char → Option (List Char)
  | [] => none
  | c :: cs =>
    if ciMatchesAt chestPat (c :: cs) then
      let run := takeWhilePath ((c :: cs).drop chestPat.length)
      if run = [] then pathologyScan cs else some run
    else pathologyScan cs

/-- `modelId.match(/chestradiography_([a-z_]+)/i)` returning the captured
group `pathologyMatch[1]` as a character list, or `none` when the regex does
not match. -/
def pathologyCapture (modelId : String) : Option (List Char) :=
  pathologyScan modelId.toList

/-- `pathologyMatch ? pathologyMatch[1].toLowerCase() : "lung_opacity"`
(`toLowerCase` applied character-wise). -/
def pathologyKeyOfModelId (modelId : String) : String :=
  match pathologyCapture modelId with
  | some run => String.mk (run.map Char.toLower)
  | none => "lung_opacity"

/-- The `lung_opacity` entry of `PATHOLOGY_INFO`, the catalog's fallback. -/
def lungOpacityInfo : PathologyInfo :=
  { fullName := "Lung Opacity"
    description := "Abnormal opacity detected in lung parenchyma. This finding may represent consolidation, infiltrate, mass, or other pathological process requiring clinical correlation."
    secondaryFindings :=
      ["Air bronchograms may be present, suggesting alveolar filling process.",
       "Pattern suggests possible infectious, inflammatory, or neoplastic etiology."] }

/-- The `PATHOLOGY_INFO` catalog of the Demo component, as a lookup from
pathology key to entry (`none` models an absent key). -/
def PATHOLOGY_INFO (k : String) : Option PathologyInfo :=
  if k = "atelectasis" then some
    { fullName := "Atelectasis"
      description := "Collapse or closure of lung tissue detected. This finding shows characteristic opacity consistent with atelectasis, often caused by airway obstruction, compression, or post-surgical changes."
      secondaryFindings :=
        ["Adjacent tissue changes observed. May indicate volume loss or compensatory hyperinflation in neighboring lung segments.",
         "Mild mediastinal shift noted, consistent with volume loss in affected region."] }
  else if k = "pneumothorax" then some
    { fullName := "Pneumothorax"
      description := "Air accumulation detected in pleural space. Visible absence of lung markings with potential visceral pleural line, indicating separation of lung from chest wall."
      secondaryFindings :=
        ["Lung edge visualization suggests partial lung collapse.",
         "Possible tension signs: mediastinal shift or diaphragm depression may be present."] }
  else if k = "cardiomegaly" then some
    { fullName := "Cardiomegaly"
      description := "Enlarged cardiac silhouette detected. Cardiothoracic ratio appears increased, suggesting possible cardiac chamber enlargement or pericardial effusion."
      secondaryFindings :=
        ["Vascular congestion patterns may indicate associated heart failure.",
         "Pulmonary vascular redistribution suggestive of elevated pulmonary venous pressure."] }
  else if k = "lung_opacity" then some lungOpacityInfo
  else if k = "pleural_effusion" then some
    { fullName := "Pleural Effusion"
      description := "Fluid accumulation detected in pleural space. Characteristic blunting of costophrenic angle or meniscus sign indicates pleural fluid collection."
      secondaryFindings :=
        ["Compressive atelectasis may be present in adjacent lung tissue.",
         "Layering pattern suggests free-flowing pleural fluid."] }
  else if k = "consolidation" then some
    { fullName := "Consolidation"
      description := "Dense airspace opacity detected consistent with alveolar consolidation. Pattern suggests filling of alveolar spaces with fluid, pus, blood, or cells."
      secondaryFindings :=
        ["Air bronchograms visible within consolidated region.",
         "Lobar or segmental distribution pattern noted."] }
  else if k = "infiltration" then some
    { fullName := "Infiltration"
      description := "Pulmonary infiltrate detected showing increased interstitial or alveolar markings. Pattern may represent infection, inflammation, or other pathological process."
      secondaryFindings :=
        ["Bilateral distribution suggests diffuse process.",
         "Reticular or nodular pattern indicates interstitial involvement."] }
  else if k = "pleural_thickening" then some
    { fullName := "Pleural Thickening"
      description := "Abnormal pleural thickening detected. Findings consistent with chronic pleural changes, possibly from prior inflammation, infection, or asbestos exposure."
      secondaryFindings :=
        ["Localized pleural irregularity noted.",
         "May represent sequelae of prior empyema or hemothorax."] }
  else if k = "aortic_enlargement" then some
    { fullName := "Aortic Enlargement"
      description := "Widened aortic contour detected. Finding suggests possible aortic aneurysm, atherosclerotic changes, or other vascular abnormality requiring further evaluation."
      secondaryFindings :=
        ["Aortic calcification may be present.",
         "Mediastinal widening consistent with vascular enlargement."] }
  else if k = "calcification" then some
    { fullName := "Calcification"
      description := "Calcified density detected within lung parenchyma or associated structures. May represent granuloma from prior infection, healed tuberculosis, or other benign processes."
      secondaryFindings :=
        ["Multiple calcified nodules suggest prior granulomatous disease.",
         "Pattern consistent with old healed infection."] }
  else if k = "pulmonary_fibrosis" then some
    { fullName := "Pulmonary Fibrosis"
      description := "Interstitial changes consistent with pulmonary fibrosis detected. Reticular pattern and volume loss suggest chronic scarring of lung tissue."
      secondaryFindings :=
        ["Honeycombing pattern may indicate advanced fibrotic changes.",
         "Bilateral lower lobe predominance noted, typical of usual interstitial pneumonia pattern."] }
  else if k = "normal" then some
    { fullName := "Normal"
      description := "No significant abnormalities detected. Lung fields appear clear with normal cardiac silhouette, mediastinal contours, and bony structures."
      secondaryFindings := [] }
  else none

/-- The `lung_opacity` entry of `PATHOLOGY_REGIONS`, the catalog's fallback. -/
def lungOpacityTemplates : List RegionTemplate :=
  [{ x := 0.35, y := 0.45, radius := 0.20, description := "Left lung field" },
   { x := 0.65, y := 0.45, radius := 0.20, description := "Right lung field" }]

/-- The `PATHOLOGY_REGIONS` catalog of the Demo component: anatomical region
templates per pathology key (`none` models an absent key). -/
def PATHOLOGY_REGIONS (k : String) : Option (List RegionTemplate) :=
  if k = "atelectasis" then some
    [{ x := 0.30, y := 0.35, radius := 0.18, description := "Left upper/mid lung zone" },
     { x := 0.70, y := 0.35, radius := 0.18, description := "Right upper/mid lung zone" }]
  else if k = "pneumothorax" then some
    [{ x := 0.25, y := 0.25, radius := 0.15, description := "Left apical region" },
     { x := 0.75, y := 0.25, radius := 0.15, description := "Right apical region" }]
  else if k = "cardiomegaly" then some
    [{ x := 0.50, y := 0.60, radius := 0.28, description := "Cardiac silhouette enlargement" }]
  else if k = "lung_opacity" then some lungOpacityTemplates
  else if k = "pleural_effusion" then some
    [{ x := 0.30, y := 0.72, radius := 0.18, description := "Left costophrenic angle blunting" },
     { x := 0.70, y := 0.72, radius := 0.18, description := "Right costophrenic angle blunting" }]
  else if k = "consolidation" then some
    [{ x := 0.35, y := 0.52, radius := 0.18, description := "Left lower lobe" },
     { x := 0.65, y := 0.52, radius := 0.18, description := "Right lower lobe" }]
  else if k = "infiltration" then some
    [{ x := 0.35, y := 0.42, radius := 0.22, description := "Left perihilar/central region" },
     { x := 0.65, y := 0.42, radius := 0.22, description := "Right perihilar/central region" }]
  else if k = "pleural_thickening" then some
    [{ x := 0.18, y := 0.50, radius := 0.12, description := "Left lateral pleural margin" },
     { x := 0.82, y := 0.50, radius := 0.12, description := "Right lateral pleural margin" }]
  else if k = "aortic_enlargement" then some
    [{ x := 0.45, y := 0.28, radius := 0.16, description := "Aortic arch/knob widening" }]
  else if k = "calcification" then some
    [{ x := 0.50, y := 0.55, radius := 0.18, description := "Cardiac/vascular calcification" }]
  else if k = "pulmonary_fibrosis" then some
    [{ x := 0.35, y := 0.58, radius := 0.20, description := "Left lower zone reticular pattern" },
     { x := 0.65, y := 0.58, radius := 0.20, description := "Right lower zone reticular pattern" }]
  else if k = "ild" then some
    [{ x := 0.35, y := 0.48, radius := 0.22, description := "Left mid/lower zone interstitial pattern" },
     { x := 0.65, y := 0.48, radius := 0.22, description := "Right mid/lower zone interstitial pattern" }]
  else if k = "normal" then some []
  else none

/-- `aiResponse.results?.response?.score || 0` (the fallback `0` coincides
with JS falsiness of `0`). -/
def scoreOf (r : AIResponse) : ℚ :=
  (r.score).getD 0

/-- `aiResponse.model_id || aiResponse.results?.response?.model || ""`,
with `undefined` and `""` both falsy. -/
def modelIdOf (r : AIResponse) : String :=
  jsOrString ((r.model_id).getD "") (jsOrString ((r.responseModel).getD "") "")

/-- The pathology key the synthesizer derives from a response. -/
def pathologyKeyFor (r : AIResponse) : String :=
  pathologyKeyOfModelId (modelIdOf r)

/-- `PATHOLOGY_REGIONS[pathologyKey] || PATHOLOGY_REGIONS["lung_opacity"]`. -/
def anatomicalRegionsOf (r : AIResponse) : List RegionTemplate :=
  (PATHOLOGY_REGIONS (pathologyKeyFor r)).getD lungOpacityTemplates

/-- `pathologyInfo.secondaryFindings?.[0] ? "Secondary Finding" :
pathologyInfo.fullName` — the first secondary finding must exist and be a
truthy (non-empty) string. -/
def secondaryLabelOf (info : PathologyInfo) : String :=
  match info.secondaryFindings.head? with
  | some f => if f = "" then info.fullName else "Secondary Finding"
  | none => info.fullName

/-- `pathologyInfo.secondaryFindings?.[0] || secondaryRegion.description`. -/
def secondaryExplanationOf (info : PathologyInfo) (template : RegionTemplate) : String :=
  match info.secondaryFindings.head? with
  | some f => if f = "" then template.description else f
  | none => template.description

/-- Body of `generateRegionsFromAIResponse` (Demo variant with anatomical
templates, src/unnamed/part_000 lines 169-227) after the score and pathology
key have been extracted: the `< 0.3` cutoff, the empty-template early return,
the primary region from the first template, and the secondary region pushed
when `score > 0.6 && anatomicalRegions.length > 1`. -/
def genCore (score : ℚ) (pathologyKey : String) : List HeatmapRegion :=
  let pathologyInfo := (PATHOLOGY_INFO pathologyKey).getD lungOpacityInfo
  if score < 0.3 then []
  else
    match (PATHOLOGY_REGIONS pathologyKey).getD lungOpacityTemplates with
    | [] => []
    | primaryRegion :: rest =>
      let primary : HeatmapRegion :=
        { x := primaryRegion.x, y := primaryRegion.y, radius := primaryRegion.radius
          intensity := score
          label := some pathologyInfo.fullName
          explanation := some pathologyInfo.description }
      match rest with
      | [] => [primary]
      | secondaryRegion :: _ =>
        if 0.6 < score then
          [primary,
           { x := secondaryRegion.x, y := secondaryRegion.y, radius := secondaryRegion.radius
             intensity := score * 0.85
             label := some (secondaryLabelOf pathologyInfo)
             explanation := some (secondaryExplanationOf pathologyInfo secondaryRegion) }]
        else [primary]

/-- `generateRegionsFromAIResponse` (Demo variant with anatomical templates):
extract the score and pathology key, then run the synthesis core. -/
def generateRegionsFromAIResponse (r : AIResponse) : List HeatmapRegion :=
  genCore (scoreOf r) (pathologyKeyFor r)

/-- The point-in-circle test of `detectConsensus` and
`handleCanvasMouseMove`: the source computes
`Math.sqrt(dx*dx + dy*dy) < radius`; over `ℚ` this is embedded by the
equivalent decidable comparison `0 < radius ∧ dx*dx + dy*dy < radius*radius`
(equivalence proved in `regionContains_iff`). -/
def regionContains (px py : ℚ) (region : HeatmapRegion) : Bool :=
  let dx := px - region.x
  let dy := py - region.y
  decide (0 < region.radius) && decide (dx * dx + dy * dy < region.radius * region.radius)

/-- `detectConsensus` of `CombinedDicomViewer.tsx`: for each clinician
annotation (outer loop) and AI region (inner loop), push a consensus record
when the annotation point lies strictly inside the region's circle; the
derived center is the annotation point and the derived radius is
`region.radius * 0.8`. -/
def detectConsensus (clinicianAnnotations : List Annot) (aiRegions : List HeatmapRegion) :
    List ConsensusRegion :=
  clinicianAnnotations.flatMap fun a =>
    aiRegions.flatMap fun region =>
      if regionContains a.x a.y region then
        [{ x := a.x, y := a.y, radius := region.radius * 0.8
           clinicianAnnot := a, aiRegion := region }]
      else []

/-- The region-search loop of `handleCanvasMouseMove`
(`DicomViewerWithOverlay.tsx`): the first region in array order whose circle
strictly contains the normalized cursor point, else `none`. -/
def pickRegion (px py : ℚ) : List HeatmapRegion → Option HeatmapRegion
  | [] => none
  | region :: rest =>
    if regionContains px py region then some region else pickRegion px py rest

/-- Euclidean distance from `(px, py)` to the region's center is strictly
less than its radius, in normalized coordinate space over the reals —
the specification-level reading of the source's `Math.sqrt` comparison. -/
def euclidHit (px py : ℚ) (region : HeatmapRegion) : Prop :=
  Real.sqrt (((px : ℝ) - (region.x : ℝ)) ^ 2 + ((py : ℝ) - (region.y : ℝ)) ^ 2)
    < (region.radius : ℝ)

/-- A canvas color: either a fixed CSS string from the source, or an
`rgba(r, g, b, a)` value whose alpha the source computes numerically. -/
inductive ColorSpec where
  | named (s : String)
  | rgba (red green blue : ℕ) (alpha : ℚ)
deriving DecidableEq

/-- One `addColorStop` of a radial gradient: offset, rgb, and alpha. -/
structure ColorStop where
  offset : ℚ
  red : ℕ
  green : ℕ
  blue : ℕ
  alpha : ℚ
deriving DecidableEq

/-- The canvas operations the overlay renderers perform, as pure data.
`fillGradientArc` is `createRadialGradient` + `arc` + `fill` (combined view);
`fillGradientRect` is `createRadialGradient` + `fillRect` over the rectangle
`(rx, ry, rw, rh)` (single-image AI view); both carry the gradient's center
and outer pixel radius. -/
inductive DrawCmd where
  | clearRect (x y w h : ℚ)
  | fillGradientArc (cx cy r : ℚ) (stops : List ColorStop)
  | fillGradientRect (cx cy r : ℚ) (stops : List ColorStop) (rx ry rw rh : ℚ)
  | strokeArc (cx cy r lineWidth : ℚ) (color : ColorSpec)
  | strokeRectCmd (x y w h lineWidth : ℚ) (color : ColorSpec) (dashed : Bool)
  | fillArc (cx cy r : ℚ) (color : ColorSpec)
  | fillTextCmd (text : String) (x y : ℚ) (font : String) (color : ColorSpec)
deriving DecidableEq

/-- Color stops of the combined view's orange AI-region gradient:
orange center at `alpha`, yellow mid at `alpha · 0.6`, transparent edge. -/
def aiStops (alpha : ℚ) : List ColorStop :=
  [{ offset := 0, red := 251, green := 146, blue := 60, alpha := alpha },
   { offset := 0.5, red := 251, green := 191, blue := 36, alpha := alpha * 0.6 },
   { offset := 1, red := 251, green := 191, blue := 36, alpha := 0 }]

/-- Color stops of the combined view's green consensus gradient. -/
def consensusStops : List ColorStop :=
  [{ offset := 0, red := 34, green := 197, blue := 94, alpha := 0.3 },
   { offset := 0.5, red := 34, green := 197, blue := 94, alpha := 0.2 },
   { offset := 1, red := 34, green := 197, blue := 94, alpha := 0 }]

/-- Color stops of the single-image view's red/orange heatmap gradient. -/
def heatStops (alpha : ℚ) : List ColorStop :=
  [{ offset := 0, red := 255, green := 0, blue := 0, alpha := alpha },
   { offset := 0.5, red := 255, green := 165, blue := 0, alpha := alpha * 0.6 },
   { offset := 1, red := 255, green := 165, blue := 0, alpha := 0 }]

/-- The AI-region pass of `drawOverlays` (`CombinedDicomViewer.tsx`): orange
radial gradient at `(x·W, y·H)` with pixel radius `radius·W`, alpha
`region.intensity || 0.3`, then the solid border. -/
def aiRegionDraw (w h : ℚ) (region : HeatmapRegion) : List DrawCmd :=
  let x := region.x * w
  let y := region.y * h
  let radius := region.radius * w
  let alpha := if region.intensity = 0 then 0.3 else region.intensity
  [DrawCmd.fillGradientArc x y radius (aiStops alpha),
   DrawCmd.strokeArc x y radius 2 (ColorSpec.named "rgba(251, 146, 60, 0.6)")]

/-- The consensus pass of `drawOverlays`: green radial gradient and border at
the consensus record's derived center/radius, fixed opacities. -/
def consensusDraw (w h : ℚ) (consensus : ConsensusRegion) : List DrawCmd :=
  let x := consensus.x * w
  let y := consensus.y * h
  let radius := consensus.radius * w
  [DrawCmd.fillGradientArc x y radius consensusStops,
   DrawCmd.strokeArc x y radius 3 (ColorSpec.named "rgba(34, 197, 94, 0.8)")]

/-- The clinician-marker pass of `drawOverlays`: filled pin of fixed pixel
radius 12 with white border and 1-based index text, plus the comment badge
when the comment is non-empty. -/
def markerDraw (w h : ℚ) (a : Annot) (index : ℕ) : List DrawCmd :=
  let x := a.x * w
  let y := a.y * h
  let col := if a.color = "" then "rgba(59, 130, 246, 1)" else a.color
  [DrawCmd.fillArc x y 12 (ColorSpec.named col),
   DrawCmd.strokeArc x y 12 3 (ColorSpec.named "white"),
   DrawCmd.fillTextCmd (toString (index + 1)) x y "bold 13px sans-serif" (ColorSpec.named "white")]
  ++ (if a.comment = "" then []
      else
        [DrawCmd.fillArc (x + 16) (y - 16) 8 (ColorSpec.named col),
         DrawCmd.strokeArc (x + 16) (y - 16) 8 2 (ColorSpec.named "white"),
         DrawCmd.fillTextCmd "i" (x + 16) (y - 16) "bold 10px sans-serif" (ColorSpec.named "white")])

/-- `drawOverlays` of `CombinedDicomViewer.tsx` (src/unnamed/part_001 lines
177-278) as the sequence of canvas operations on a `w × h` canvas: clear,
AI regions, consensus halos when `showConsensus`, clinician markers. -/
def drawOverlays (w h : ℚ) (aiRegions : List HeatmapRegion)
    (clinicianAnnotations : List Annot) (showConsensus : Bool)
    (consensusRegions : List ConsensusRegion) : List DrawCmd :=
  [DrawCmd.clearRect 0 0 w h]
  ++ aiRegions.flatMap (aiRegionDraw w h)
  ++ (if showConsensus then consensusRegions.flatMap (consensusDraw w h) else [])
  ++ (clinicianAnnotations.enum.flatMap fun p => markerDraw w h p.2 p.1)

/-- The gradient pass of `drawHeatmap` (`DicomViewerWithOverlay.tsx`):
red/orange radial gradient centered at `(x·W, y·H)` with pixel radius
`radius · min(W, H)`, painted by `fillRect` over the whole canvas. -/
def heatmapGradientDraw (w h : ℚ) (region : HeatmapRegion) : List DrawCmd :=
  let alpha := region.intensity * 0.5
  [DrawCmd.fillGradientRect (region.x * w) (region.y * h) (region.radius * min w h)
     (heatStops alpha) 0 0 w h]

/-- The box-and-label pass of `drawHeatmap`: dashed bounding box of side
`radius · min(W, H) · 1.5`, brightened/thickened when hovered, and the label
text when the label is truthy. -/
def heatmapBoxDraw (w h : ℚ) (hovered : Option HeatmapRegion) (region : HeatmapRegion) :
    List DrawCmd :=
  let isHovered := hovered = some region
  let boxSize := region.radius * min w h * 1.5
  let x := region.x * w - boxSize / 2
  let y := region.y * h - boxSize / 2
  [DrawCmd.strokeRectCmd x y boxSize boxSize (if isHovered then 4 else 3)
     (ColorSpec.rgba 255 0 0 (if isHovered then 1 else region.intensity)) true]
  ++ (match region.label with
      | some label =>
        if label = "" then []
        else
          [DrawCmd.fillTextCmd label (x + 5) (y + 15) "bold 12px system-ui"
             (if isHovered then ColorSpec.named "rgba(255, 0, 0, 1)"
              else ColorSpec.named "rgba(255, 0, 0, 0.9)")]
      | none => [])

/-- `drawHeatmap` of `DicomViewerWithOverlay.tsx` (lines 107-174) on a
`w × h` canvas, over the resolved region list
(`heatmapRegions || generateHeatmapRegions(heatmapIntensity)`): clear, the
gradient pass, then the box/label pass. -/
def drawHeatmap (w h : ℚ) (regions : List HeatmapRegion)
    (hovered : Option HeatmapRegion) : List DrawCmd :=
  [DrawCmd.clearRect 0 0 w h]
  ++ regions.flatMap (heatmapGradientDraw w h)
  ++ regions.flatMap (heatmapBoxDraw w h hovered)

/-- `drawSingleAnnotation` of the annotatable viewer (Hero.tsx source lines
200-248): guarded by `if (!annotation.x || !annotation.y) return;`, i.e. a
falsy (zero) coordinate draws nothing; otherwise the numbered pin and
optional comment badge.  Shortened Lean name `drawSingleAnnot`. -/
def drawSingleAnnot (a : Annot) (canvasWidth canvasHeight : ℚ)
    (annotNumber : ℕ) : List DrawCmd :=
  if a.x = 0 ∨ a.y = 0 then []
  else
    let x := a.x * canvasWidth
    let y := a.y * canvasHeight
    let col := if a.color = "" then "rgba(59, 130, 246, 1)" else a.color
    [DrawCmd.fillArc x y 12 (ColorSpec.named col),
     DrawCmd.strokeArc x y 12 3 (ColorSpec.named "white"),
     DrawCmd.fillTextCmd (toString annotNumber) x y "bold 13px sans-serif" (ColorSpec.named "white")]
    ++ (if a.comment = "" then []
        else
          [DrawCmd.fillArc (x + 16) (y - 16) 8 (ColorSpec.named col),
           DrawCmd.strokeArc (x + 16) (y - 16) 8 2 (ColorSpec.named "white"),
           DrawCmd.fillTextCmd "i" (x + 16) (y - 16) "bold 10px sans-serif" (ColorSpec.named "white")])

/-- `drawAnnotations` of the same viewer: clear, then each annotation drawn
with its 1-based index. -/
def drawAnnotations (w h : ℚ) (annotations : List Annot) : List DrawCmd :=
  [DrawCmd.clearRect 0 0 w h]
  ++ (annotations.enum.flatMap fun p => drawSingleAnnot p.2 w h (p.1 + 1))

/-- `handleDeleteAnnotation` of Hero.tsx (both viewer variants):
`annotations.filter(a => a.id !== id)`.  Shortened Lean name
`handleDeleteAnnot`. -/
def handleDeleteAnnot (annotations : List Annot) (id : String) : List Annot :=
  annotations.filter fun a => a.id != id

/-! Concrete inputs used by the witness and counterexample theorems. -/

/-- A clinician annotation at (0.3, 0.3). -/
def aW1 : Annot := ⟨"a1", "point", 0.3, 0.3, "", ""⟩

/-- An AI region centered at the same point, radius 0.2. -/
def rW1 : HeatmapRegion := ⟨0.3, 0.3, 0.2, 0.9, some "Finding", none⟩

/-- A clinician annotation 0.05 below an AI region's center. -/
def aW8 : Annot := ⟨"a2", "point", 0.5, 0.55, "nodule", "rgba(59, 130, 246, 1)"⟩

/-- An AI region at (0.5, 0.5) with radius 0.25, containing `aW8`. -/
def rW8 : HeatmapRegion := ⟨0.5, 0.5, 0.25, 0.8, some "Atelectasis", none⟩

/-- The consensus record `detectConsensus` builds from `aW8` and `rW8`. -/
def cW8 : ConsensusRegion := ⟨aW8.x, aW8.y, rW8.radius * 0.8, aW8, rW8⟩

/-- First of two overlapping AI regions, both containing (0.5, 0.5). -/
def rA6 : HeatmapRegion := ⟨0.5, 0.5, 0.3, 0.7, some "Region 1", none⟩

/-- Second overlapping AI region, smaller radius and higher intensity. -/
def rB6 : HeatmapRegion := ⟨0.6, 0.5, 0.2, 0.9, some "Region 2", none⟩

/-- Analysis response: score 0.61, pneumothorax model id. -/
def rW2 : AIResponse := ⟨some 0.61, some "mc_chestradiography_pneumothorax:v1.20250828", none⟩

/-- Analysis response: score exactly 0.6, atelectasis model id. -/
def rW2b : AIResponse := ⟨some 0.6, some "mc_chestradiography_atelectasis:v1.20250828", none⟩

/-- Analysis response: high score 0.95 on the `normal` model. -/
def rW3 : AIResponse := ⟨some 0.95, some "mc_chestradiography_normal:v1.20250828", none⟩

/-- Analysis response: score 0.5 (above the 0.3 cutoff) on the `normal`
model — the synthesizer still emits no regions. -/
def rX4 : AIResponse := ⟨some 0.5, some "mc_chestradiography_normal:v1.20250828", none⟩

/-- Analysis response: score 0.29, just below the cutoff. -/
def rW4a : AIResponse := ⟨some 0.29, some "mc_chestradiography_atelectasis:v1.20250828", none⟩

/-- Analysis response: score exactly 0.3, at the inclusive boundary. -/
def rW4b : AIResponse := ⟨some 0.3, some "mc_chestradiography_atelectasis:v1.20250828", none⟩

/-- Analysis response whose model id is the bare string "pneumothorax":
it contains "pneumothorax" but does not match the extraction regex. -/
def rX5 : AIResponse := ⟨some 0.85, some "pneumothorax", none⟩

/-- Analysis response: score 0.85, full pneumothorax model id. -/
def rW5 : AIResponse := ⟨some 0.85, some "mc_chestradiography_pneumothorax:v1.20250828", none⟩

/-- An AI region for the renderer-scaling witness. -/
def rW7 : HeatmapRegion := ⟨0.35, 0.45, 0.2, 0.9, some "Lung Opacity", none⟩

/-- A clinician annotation on the left image edge (`x = 0`). -/
def aW9 : Annot := ⟨"a9", "point", 0, 0.5, "left edge", ""⟩

/-! Theorems. -/

/-- The boolean point-in-circle test is equivalent to the source's
`Math.sqrt(dx*dx + dy*dy) < radius` comparison read over the reals. -/
theorem regionContains_iff (px py : ℚ) (region : HeatmapRegion) :
    regionContains px py region = true ↔ euclidHit px py region := by
  unfold regionContains euclidHit
  rw [Bool.and_eq_true, decide_eq_true_eq, decide_eq_true_eq]
  constructor
  · rintro ⟨hr, hd⟩
    have hr' : (0 : ℝ) < (region.radius : ℝ) := by exact_mod_cast hr
    rw [Real.sqrt_lt' hr', pow_two, pow_two, pow_two]
    exact_mod_cast hd
  · intro hlt
    have hr' : (0 : ℝ) < (region.radius : ℝ) := lt_of_le_of_lt (Real.sqrt_nonneg _) hlt
    rw [Real.sqrt_lt' hr', pow_two, pow_two, pow_two] at hlt
    constructor
    · exact_mod_cast hr'
    · exact_mod_cast hlt

/-- C1: `detectConsensus` pairs an annotation with an AI region exactly when
the Euclidean distance from the annotation point to the region's center, in
normalized coordinates, is strictly less than the region's radius; a pair at
distance exactly equal to the radius is excluded by the strict inequality. -/
theorem detectConsensus_pair_iff (A : List Annot) (R : List HeatmapRegion)
    (a : Annot) (r : HeatmapRegion) :
    (∃ c ∈ detectConsensus A R, c.clinicianAnnot = a ∧ c.aiRegion = r) ↔
      a ∈ A ∧ r ∈ R ∧ euclidHit a.x a.y r := by
  constructor
  · rintro ⟨c, hc, hca, hcr⟩
    simp only [detectConsensus, List.mem_flatMap] at hc
    obtain ⟨a', ha', r', hr', hc'⟩ := hc
    by_cases h : regionContains a'.x a'.y r' = true
    · rw [if_pos h] at hc'
      rw [List.mem_singleton] at hc'
      subst hc'
      have hea : a' = a := hca
      have her : r' = r := hcr
      subst hea; subst her
      exact ⟨ha', hr', (regionContains_iff _ _ _).mp h⟩
    · rw [if_neg h] at hc'
      cases hc'
  · rintro ⟨ha, hr, hhit⟩
    refine ⟨⟨a.x, a.y, r.radius * 0.8, a, r⟩, ?_, rfl, rfl⟩
    simp only [detectConsensus, List.mem_flatMap]
    refine ⟨a, ha, r, hr, ?_⟩
    rw [if_pos ((regionContains_iff _ _ _).mpr hhit)]
    exact List.mem_singleton.mpr rfl

/-- Witness for C1: the annotation at (0.3, 0.3) and the region centered
there with radius 0.2 produce a consensus pair. -/
theorem detectConsensus_pair_iff_witness :
    ∃ c ∈ detectConsensus [aW1] [rW1], c.clinicianAnnot = aW1 ∧ c.aiRegion = rW1 := by
  refine (detectConsensus_pair_iff [aW1] [rW1] aW1 rW1).mpr
    ⟨List.mem_singleton.mpr rfl, List.mem_singleton.mpr rfl, ?_⟩
  exact (regionContains_iff _ _ _).mp (by norm_num [regionContains, aW1, rW1])

/-- C8: every record `detectConsensus` emits has the matched annotation's
point as its center and `0.8` times the matched AI region's radius as its
derived radius. -/
theorem detectConsensus_derived (A : List Annot) (R : List HeatmapRegion)
    (c : ConsensusRegion) (hc : c ∈ detectConsensus A R) :
    c.x = c.clinicianAnnot.x ∧ c.y = c.clinicianAnnot.y ∧
      c.radius = c.aiRegion.radius * 0.8 := by
  simp only [detectConsensus, List.mem_flatMap] at hc
  obtain ⟨a, _, r, _, hc'⟩ := hc
  by_cases h : regionContains a.x a.y r = true
  · rw [if_pos h] at hc'
    rw [List.mem_singleton] at hc'
    subst hc'
    exact ⟨rfl, rfl, rfl⟩
  · rw [if_neg h] at hc'
    cases hc'

/-- Witness for C8 at a concrete annotation/region pair. -/
theorem detectConsensus_derived_witness :
    cW8 ∈ detectConsensus [aW8] [rW8] ∧
      (cW8.x = cW8.clinicianAnnot.x ∧ cW8.y = cW8.clinicianAnnot.y ∧
       cW8.radius = cW8.aiRegion.radius * 0.8) := by
  have h : regionContains aW8.x aW8.y rW8 = true := by
    norm_num [regionContains, aW8, rW8]
  have hm : cW8 ∈ detectConsensus [aW8] [rW8] := by
    simp only [detectConsensus, List.flatMap_cons, List.flatMap_nil, List.append_nil]
    rw [if_pos h]
    exact List.mem_singleton.mpr rfl
  exact ⟨hm, detectConsensus_derived [aW8] [rW8] cW8 hm⟩

/-- C6: the hover pick loop returns `none` exactly when no region's circle
strictly contains the cursor point, and any returned region strictly contains
the point and is the first such region in array order (every earlier region
misses), so ties between overlapping regions go to array position. -/
theorem pickRegion_first (px py : ℚ) (regions : List HeatmapRegion) :
    (pickRegion px py regions = none ↔ ∀ region ∈ regions, ¬ euclidHit px py region) ∧
    (∀ r, pickRegion px py regions = some r →
      euclidHit px py r ∧
      ∃ i, regions.get? i = some r ∧
        ∀ j, j < i → ∀ s, regions.get? j = some s → ¬ euclidHit px py s) := by
  induction regions with
  | nil =>
    refine ⟨by simp [pickRegion], ?_⟩
    intro r h
    simp [pickRegion] at h
  | cons region rest ih =>
    by_cases h : regionContains px py region = true
    · constructor
      · simp only [pickRegion, if_pos h]
        constructor
        · intro hnone; cases hnone
        · intro hall
          exact absurd ((regionContains_iff _ _ _).mp h)
            (hall region (List.mem_cons_self _ _))
      · intro r hr
        simp only [pickRegion, if_pos h, Option.some.injEq] at hr
        subst hr
        refine ⟨(regionContains_iff _ _ _).mp h, 0, rfl, ?_⟩
        intro j hj
        exact absurd hj (Nat.not_lt_zero j)
    · have hmiss : ¬ euclidHit px py region := fun hh =>
        h ((regionContains_iff _ _ _).mpr hh)
      constructor
      · simp only [pickRegion, if_neg h]
        rw [ih.1]
        constructor
        · intro hall s hs
          rcases List.mem_cons.mp hs with rfl | hs'
          · exact hmiss
          · exact hall s hs'
        · intro hall s hs
          exact hall s (List.mem_cons_of_mem _ hs)
      · intro r hr
        simp only [pickRegion, if_neg h] at hr
        obtain ⟨hhit, i, hget, hmin⟩ := ih.2 r hr
        refine ⟨hhit, i + 1, hget, ?_⟩
        intro j hj s hs
        cases j with
        | zero =>
          have hs' : region = s := by
            simpa using hs
          subst hs'
          exact hmiss
        | succ k =>
          exact hmin k (Nat.lt_of_succ_lt_succ hj) s hs

/-- Witness for C6: the point (0.5, 0.5) lies inside both `rA6` and `rB6`,
and the pick resolver returns the first, `rA6`. -/
theorem pickRegion_first_witness :
    pickRegion 0.5 0.5 [rA6, rB6] = some rA6 ∧
      euclidHit 0.5 0.5 rA6 ∧ euclidHit 0.5 0.5 rB6 := by
  have hA : regionContains (0.5 : ℚ) 0.5 rA6 = true := by
    norm_num [regionContains, rA6]
  have hB : regionContains (0.5 : ℚ) 0.5 rB6 = true := by
    norm_num [regionContains, rB6]
  have hpick : pickRegion (0.5 : ℚ) 0.5 [rA6, rB6] = some rA6 := by
    simp only [pickRegion, if_pos hA]
  have happ := (pickRegion_first 0.5 0.5 [rA6, rB6]).2 rA6 hpick
  exact ⟨hpick, happ.1, (regionContains_iff _ _ _).mp hB⟩

/-- C2: when the resolved pathology has a second anatomical template, a score
strictly above 0.6 yields exactly two regions, the primary at the score and
the secondary at 0.85 times the score, while a score of exactly 0.6 yields
only the primary region. -/
theorem generateRegions_secondary_threshold (r : AIResponse)
    (h2 : 1 < (anatomicalRegionsOf r).length) :
    ((0.6 : ℚ) < scoreOf r →
      ∃ p s, generateRegionsFromAIResponse r = [p, s] ∧
        p.intensity = scoreOf r ∧ s.intensity = 0.85 * scoreOf r) ∧
    (scoreOf r = 0.6 → ∃ p, generateRegionsFromAIResponse r = [p]) := by
  obtain ⟨t1, t2, rest, hL⟩ : ∃ t1 t2 rest,
      (PATHOLOGY_REGIONS (pathologyKeyFor r)).getD lungOpacityTemplates =
        t1 :: t2 :: rest := by
    revert h2
    unfold anatomicalRegionsOf
    rcases (PATHOLOGY_REGIONS (pathologyKeyFor r)).getD lungOpacityTemplates with
      _ | ⟨t1, _ | ⟨t2, rest⟩⟩ <;> intro h2
    · simp at h2
    · simp at h2
    · exact ⟨t1, t2, rest, rfl⟩
  constructor
  · intro hs
    have h3 : ¬ scoreOf r < (0.3 : ℚ) := by
      intro hcon
      have : (0.3 : ℚ) < 0.6 := by norm_num
      linarith
    have he : genCore (scoreOf r) (pathologyKeyFor r) =
        [{ x := t1.x, y := t1.y, radius := t1.radius, intensity := scoreOf r,
           label := some ((PATHOLOGY_INFO (pathologyKeyFor r)).getD lungOpacityInfo).fullName,
           explanation := some ((PATHOLOGY_INFO (pathologyKeyFor r)).getD lungOpacityInfo).description },
         { x := t2.x, y := t2.y, radius := t2.radius, intensity := scoreOf r * 0.85,
           label := some (secondaryLabelOf ((PATHOLOGY_INFO (pathologyKeyFor r)).getD lungOpacityInfo)),
           explanation := some (secondaryExplanationOf
             ((PATHOLOGY_INFO (pathologyKeyFor r)).getD lungOpacityInfo) t2) }] := by
      simp only [genCore, hL]
      rw [if_neg h3, if_pos hs]
    exact ⟨_, _, he, rfl, mul_comm (scoreOf r) 0.85⟩
  · intro hs
    have h3 : ¬ scoreOf r < (0.3 : ℚ) := by rw [hs]; norm_num
    have h6 : ¬ (0.6 : ℚ) < scoreOf r := by rw [hs]; exact lt_irrefl _
    have he : genCore (scoreOf r) (pathologyKeyFor r) =
        [{ x := t1.x, y := t1.y, radius := t1.radius, intensity := scoreOf r,
           label := some ((PATHOLOGY_INFO (pathologyKeyFor r)).getD lungOpacityInfo).fullName,
           explanation := some ((PATHOLOGY_INFO (pathologyKeyFor r)).getD lungOpacityInfo).description }] := by
      simp only [genCore, hL]
      rw [if_neg h3, if_neg h6]
    exact ⟨_, he⟩

/-- Witness for C2: score 0.61 on pneumothorax (two templates) gives two
regions with secondary intensity 0.85 · 0.61; score exactly 0.6 on
atelectasis gives one region. -/
theorem generateRegions_secondary_threshold_witness :
    (1 < (anatomicalRegionsOf rW2).length ∧ (0.6 : ℚ) < scoreOf rW2 ∧
      ∃ p s, generateRegionsFromAIResponse rW2 = [p, s] ∧
        p.intensity = scoreOf rW2 ∧ s.intensity = 0.85 * scoreOf rW2) ∧
    (1 < (anatomicalRegionsOf rW2b).length ∧ scoreOf rW2b = 0.6 ∧
      ∃ p, generateRegionsFromAIResponse rW2b = [p]) := by
  have ha1 : 1 < (anatomicalRegionsOf rW2).length := by decide
  have ha2 : (0.6 : ℚ) < scoreOf rW2 := by norm_num [scoreOf, rW2]
  have hb1 : 1 < (anatomicalRegionsOf rW2b).length := by decide
  have hb2 : scoreOf rW2b = 0.6 := by norm_num [scoreOf, rW2b]
  exact ⟨⟨ha1, ha2, (generateRegions_secondary_threshold rW2 ha1).1 ha2⟩,
         ⟨hb1, hb2, (generateRegions_secondary_threshold rW2b hb1).2 hb2⟩⟩

/-- C3: a response whose model id resolves to the pathology key `normal`
yields no regions at any confidence, because `PATHOLOGY_REGIONS` maps
`normal` to the empty template list. -/
theorem generateRegions_normal (r : AIResponse)
    (hk : pathologyKeyFor r = "normal") :
    generateRegionsFromAIResponse r = [] := by
  show genCore (scoreOf r) (pathologyKeyFor r) = []
  rw [hk]
  simp only [genCore]
  rw [show (PATHOLOGY_REGIONS "normal").getD lungOpacityTemplates = [] from rfl]
  split <;> rfl

/-- Witness for C3: the `normal` model id at score 0.95 yields no regions. -/
theorem generateRegions_normal_witness :
    pathologyKeyFor rW3 = "normal" ∧ generateRegionsFromAIResponse rW3 = [] :=
  ⟨by decide, generateRegions_normal rW3 (by decide)⟩

/-- C4 counterexample: the response `rX4` has score 0.5 ≥ 0.3 but the
synthesizer emits zero regions, because its model id resolves to `normal`;
so "score ≥ 0.3 → at least one region" fails for some responses. -/
theorem generateRegions_threshold_counterexample :
    (0.3 : ℚ) ≤ scoreOf rX4 ∧ generateRegionsFromAIResponse rX4 = [] := by
  constructor
  · norm_num [scoreOf, rX4]
  · show genCore (scoreOf rX4) (pathologyKeyFor rX4) = []
    rw [show pathologyKeyFor rX4 = "normal" from by decide]
    simp only [genCore]
    rw [show (PATHOLOGY_REGIONS "normal").getD lungOpacityTemplates = [] from rfl]
    split <;> rfl

/-- C4 (amended): a score strictly below 0.3 yields zero regions, and a score
of at least 0.3 yields at least one region provided the resolved pathology's
template list is non-empty (which excludes exactly the `normal` key). -/
theorem generateRegions_threshold (r : AIResponse) :
    (scoreOf r < 0.3 → generateRegionsFromAIResponse r = []) ∧
    ((0.3 : ℚ) ≤ scoreOf r → anatomicalRegionsOf r ≠ [] →
      generateRegionsFromAIResponse r ≠ []) := by
  constructor
  · intro hlow
    show genCore (scoreOf r) (pathologyKeyFor r) = []
    simp only [genCore]
    rw [if_pos hlow]
  · intro hge hne
    show genCore (scoreOf r) (pathologyKeyFor r) ≠ []
    have h3 : ¬ scoreOf r < (0.3 : ℚ) := not_lt.mpr hge
    simp only [genCore]
    rw [if_neg h3]
    rcases hL : (PATHOLOGY_REGIONS (pathologyKeyFor r)).getD lungOpacityTemplates with
      _ | ⟨t1, rest⟩
    · exact absurd hL hne
    · cases rest with
      | nil => simp
      | cons t2 rest2 =>
        by_cases h6 : (0.6 : ℚ) < scoreOf r
        · simp [h6]
        · simp [h6]

/-- Witness for C4 (amended): score 0.29 yields zero regions; score 0.30 on
atelectasis (non-empty templates) yields at least one region. -/
theorem generateRegions_threshold_witness :
    (scoreOf rW4a < 0.3 ∧ generateRegionsFromAIResponse rW4a = []) ∧
    ((0.3 : ℚ) ≤ scoreOf rW4b ∧ anatomicalRegionsOf rW4b ≠ [] ∧
      generateRegionsFromAIResponse rW4b ≠ []) := by
  have ha : scoreOf rW4a < (0.3 : ℚ) := by norm_num [scoreOf, rW4a]
  have hb1 : (0.3 : ℚ) ≤ scoreOf rW4b := by norm_num [scoreOf, rW4b]
  have hb2 : anatomicalRegionsOf rW4b ≠ [] := by decide
  exact ⟨⟨ha, (generateRegions_threshold rW4a).1 ha⟩,
         ⟨hb1, hb2, (generateRegions_threshold rW4b).2 hb1 hb2⟩⟩

/-- C5 counterexample: the model id "pneumothorax" contains the substring
"pneumothorax" but does not match `/chestradiography_([a-z_]+)/i`, so the
key falls back to `lung_opacity` and at score 0.85 the synthesizer labels the
primary region "Lung Opacity", not "Pneumothorax". -/
theorem generateRegions_pneumo_counterexample :
    (∃ s t : String, modelIdOf rX5 = s ++ "pneumothorax" ++ t) ∧
    scoreOf rX5 = 0.85 ∧
    (generateRegionsFromAIResponse rX5).map (fun region => region.label) =
      [some "Lung Opacity", some "Secondary Finding"] := by
  refine ⟨⟨"", "", by decide⟩, by norm_num [scoreOf, rX5], ?_⟩
  have h3 : ¬ scoreOf rX5 < (0.3 : ℚ) := by norm_num [scoreOf, rX5]
  have h6 : (0.6 : ℚ) < scoreOf rX5 := by norm_num [scoreOf, rX5]
  show ((genCore (scoreOf rX5) (pathologyKeyFor rX5)).map _) = _
  rw [show pathologyKeyFor rX5 = "lung_opacity" from by decide]
  simp only [genCore]
  rw [if_neg h3]
  rw [show (PATHOLOGY_REGIONS "lung_opacity").getD lungOpacityTemplates =
      lungOpacityTemplates from rfl]
  simp only [lungOpacityTemplates]
  rw [if_pos h6]
  simp only [List.map_cons, List.map_nil]
  decide

/-- C5 (amended): a response with score 0.85 whose model id resolves to the
pathology key `pneumothorax` yields exactly one primary region labeled
"Pneumothorax" at intensity 0.85 and one secondary region labeled
"Secondary Finding" (pneumothorax has secondary findings, so the
fallback-to-primary-label branch is not taken). -/
theorem generateRegions_pneumo (r : AIResponse) (hs : scoreOf r = 0.85)
    (hk : pathologyKeyFor r = "pneumothorax") :
    ∃ p s, generateRegionsFromAIResponse r = [p, s] ∧
      p.label = some "Pneumothorax" ∧ p.intensity = 0.85 ∧
      s.label = some "Secondary Finding" := by
  have h3 : ¬ (0.85 : ℚ) < 0.3 := by norm_num
  have h6 : (0.6 : ℚ) < 0.85 := by norm_num
  show ∃ p s, genCore (scoreOf r) (pathologyKeyFor r) = [p, s] ∧ _
  rw [hs, hk]
  simp only [genCore,
    show (PATHOLOGY_REGIONS "pneumothorax").getD lungOpacityTemplates =
      [⟨0.25, 0.25, 0.15, "Left apical region"⟩,
       ⟨0.75, 0.25, 0.15, "Right apical region"⟩] from rfl]
  rw [if_neg h3, if_pos h6]
  refine ⟨_, _, rfl, by decide, rfl, by decide⟩

/-- Witness for C5 (amended) at the full pneumothorax model id. -/
theorem generateRegions_pneumo_witness :
    scoreOf rW5 = 0.85 ∧ pathologyKeyFor rW5 = "pneumothorax" ∧
    ∃ p s, generateRegionsFromAIResponse rW5 = [p, s] ∧
      p.label = some "Pneumothorax" ∧ p.intensity = 0.85 ∧
      s.label = some "Secondary Finding" := by
  have h1 : scoreOf rW5 = 0.85 := by norm_num [scoreOf, rW5]
  have h2 : pathologyKeyFor rW5 = "pneumothorax" := by decide
  exact ⟨h1, h2, generateRegions_pneumo rW5 h1 h2⟩

/-- C7: for any AI region on a `w × h` canvas, the combined-view renderer
emits its radial gradient with pixel radius `radius · w`, while the
single-image AI-overlay renderer emits it with pixel radius
`radius · min w h` — the two viewer variants scale differently. -/
theorem overlay_radius_scaling (w h : ℚ) (region : HeatmapRegion)
    (aiRegions : List HeatmapRegion) (clinicianAnnotations : List Annot)
    (showConsensus : Bool) (consensusRegions : List ConsensusRegion)
    (hovered : Option HeatmapRegion) (hmem : region ∈ aiRegions) :
    (∃ stops, DrawCmd.fillGradientArc (region.x * w) (region.y * h)
        (region.radius * w) stops ∈
        drawOverlays w h aiRegions clinicianAnnotations showConsensus consensusRegions) ∧
    (∃ stops, DrawCmd.fillGradientRect (region.x * w) (region.y * h)
        (region.radius * min w h) stops 0 0 w h ∈
        drawHeatmap w h aiRegions hovered) := by
  constructor
  · refine ⟨aiStops (if region.intensity = 0 then 0.3 else region.intensity), ?_⟩
    refine List.mem_append_left _ (List.mem_append_left _ (List.mem_append_right _ ?_))
    refine List.mem_flatMap.mpr ⟨region, hmem, ?_⟩
    simp only [aiRegionDraw]
    exact List.mem_cons_self _ _
  · refine ⟨heatStops (region.intensity * 0.5), ?_⟩
    refine List.mem_append_left _ (List.mem_append_right _ ?_)
    refine List.mem_flatMap.mpr ⟨region, hmem, ?_⟩
    simp only [heatmapGradientDraw]
    exact List.mem_cons_self _ _

/-- Witness for C7 on a 2 × 1 canvas, where `radius · w` and
`radius · min w h` differ. -/
theorem overlay_radius_scaling_witness :
    rW7 ∈ [rW7] ∧
    (∃ stops, DrawCmd.fillGradientArc (rW7.x * 2) (rW7.y * 1)
        (rW7.radius * 2) stops ∈ drawOverlays 2 1 [rW7] [] false []) ∧
    (∃ stops, DrawCmd.fillGradientRect (rW7.x * 2) (rW7.y * 1)
        (rW7.radius * min 2 1) stops 0 0 2 1 ∈ drawHeatmap 2 1 [rW7] none) := by
  have hm : rW7 ∈ [rW7] := List.mem_singleton.mpr rfl
  have happ := overlay_radius_scaling 2 1 rW7 [rW7] [] false [] none hm
  exact ⟨hm, happ.1, happ.2⟩

/-- C9: the annotatable viewer's marker routine draws nothing for an
annotation whose `x` or `y` coordinate equals 0 (the falsy guard), even
though it draws a non-empty marker for any annotation with both coordinates
non-zero. -/
theorem drawSingleAnnot_zero_guard (a : Annot) (w h : ℚ) (n : ℕ) :
    ((a.x = 0 ∨ a.y = 0) → drawSingleAnnot a w h n = []) ∧
    (a.x ≠ 0 → a.y ≠ 0 → drawSingleAnnot a w h n ≠ []) := by
  constructor
  · intro hz
    simp only [drawSingleAnnot]
    rw [if_pos hz]
  · intro hx hy
    simp only [drawSingleAnnot]
    rw [if_neg (by tauto : ¬ (a.x = 0 ∨ a.y = 0))]
    simp

/-- Witness for C9: the annotation at the left image edge (`x = 0`) is
silently skipped. -/
theorem drawSingleAnnot_zero_guard_witness :
    aW9.x = 0 ∧ drawSingleAnnot aW9 640 480 1 = [] :=
  ⟨rfl, (drawSingleAnnot_zero_guard aW9 640 480 1).1 (Or.inl rfl)⟩

/-- C10: deleting by id keeps a subsequence of the original list (relative
order preserved), keeps exactly the annotations whose id differs from the
given id, and removes every occurrence of the given id while preserving the
multiplicity of everything else. -/
theorem handleDeleteAnnot_spec (annotations : List Annot) (id : String) :
    List.Sublist (handleDeleteAnnot annotations id) annotations ∧
    (∀ a : Annot, a ∈ handleDeleteAnnot annotations id ↔
      a ∈ annotations ∧ a.id ≠ id) ∧
    (∀ a : Annot, (handleDeleteAnnot annotations id).count a =
      if a.id = id then 0 else annotations.count a) := by
  refine ⟨List.filter_sublist _, fun a => ?_, fun a => ?_⟩
  · simp [handleDeleteAnnot, List.mem_filter, bne_iff_ne]
  · by_cases hid : a.id = id
    · rw [if_pos hid, List.count_eq_zero]
      intro hmem
      simp only [handleDeleteAnnot, List.mem_filter] at hmem
      exact absurd hid (by simpa [bne_iff_ne] using hmem.2)
    · rw [if_neg hid]
      exact List.count_filter (by simpa [bne_iff_ne] using hid)

/-- Witness for C10: deleting id "a9" from a two-element list removes exactly
the annotation with that id and keeps the other, in order. -/
theorem handleDeleteAnnot_spec_witness :
    handleDeleteAnnot [aW8, aW9] "a9" = [aW8] ∧
      List.Sublist (handleDeleteAnnot [aW8, aW9] "a9") [aW8, aW9] := by
  have happ := handleDeleteAnnot_spec [aW8, aW9] "a9"
  exact ⟨rfl, happ.1⟩

end MTCHacks
